import Mathlib

/-!
The mvdan/sh bridge of CJsShell (`vendor/mvdan_sh/bridge.go`).

A shallow embedding of the two exported functions `RunScript` and `NewRunner`.

* The bridge calls four collaborators that live outside the repository:
  `ioutil.ReadFile`, `syntax.NewParser().Parse`, `interp.New` and
  `(*interp.Runner).Run`.  They are taken as the fields of an `Engine`; each one is
  an arbitrary function on an engine-side state `σ` (file system, Go heap,
  interpreter state) and returns Go's `(value, err)` pair.
* A collaborator call is an application of the engine's function to the current
  engine state, and the state it answers is the one the next call sees.  Every
  such application is also recorded, with its arguments, in a log carried next
  to the engine state.  "The parser is never invoked" and "Run is invoked once,
  on this runner" are therefore stated twice over: by the log, and by the
  engine state and outcome the call ends in, which for every engine must be
  those of exactly the named applications.
* `RunScript` returns a `C.int`, which the cgo export wrapper passes through.
  `NewRunner` returns a pointer: called from Go (line 31) it is the plain
  function `NewRunner`; called from C it goes through the export wrapper and
  its result check, `exportedNewRunner`.
* A collaborator call is taken to return; a script that never ends is outside
  this development.
* `panic(err)` is the `Outcome.panicked` result: the function hands no value
  back to its caller.
* A pointer is its address.  The three pointer types of the source
  (`*interp.Runner`, `unsafe.Pointer`, `C.RunnerHandle`) are kept apart and the
  casts between them are the functions below.
-/

namespace Bridge

/-! ## Data model -/

/-- One byte of a Go `[]byte`. -/
abbrev Byte := Fin 256

/-- A machine address. -/
abbrev Addr := Nat

/-- A Go pointer `*interp.Runner`. -/
structure RunnerPtr where
  addr : Addr
  deriving DecidableEq, Repr

/-- A Go `unsafe.Pointer`. -/
structure UnsafePointer where
  addr : Addr
  deriving DecidableEq, Repr

/-- The C type `RunnerHandle`, declared `typedef void* RunnerHandle;`. -/
structure RunnerHandle where
  addr : Addr
  deriving DecidableEq, Repr

/-- The cast `unsafe.Pointer(r)` of a runner pointer. -/
def RunnerPtr.toUnsafe (r : RunnerPtr) : UnsafePointer := ⟨r.addr⟩

/-- The cast `C.RunnerHandle(p)` of an unsafe pointer. -/
def UnsafePointer.toHandle (p : UnsafePointer) : RunnerHandle := ⟨p.addr⟩

/-- The cast `unsafe.Pointer(rh)` of a handle. -/
def RunnerHandle.toUnsafe (h : RunnerHandle) : UnsafePointer := ⟨h.addr⟩

/-- The cast `(*interp.Runner)(p)` of an unsafe pointer. -/
def UnsafePointer.toRunner (p : UnsafePointer) : RunnerPtr := ⟨p.addr⟩

/-- The conversion of `NewRunner`, line 45: `C.RunnerHandle(unsafe.Pointer(r))`. -/
def Mint (r : RunnerPtr) : RunnerHandle := r.toUnsafe.toHandle

/-- The conversion of `RunScript`, line 32: `(*interp.Runner)(unsafe.Pointer(rh))`. -/
def Recover (rh : RunnerHandle) : RunnerPtr := rh.toUnsafe.toRunner

/-- The memory a `*C.char` argument points at: the characters stored from the
pointer on. -/
structure CharPtr where
  chars : List Char
  deriving DecidableEq, Repr

/-- The cgo helper `C.GoString`: the characters before the first NUL, as a Go string. -/
def GoString (p : CharPtr) : String :=
  String.mk (p.chars.takeWhile (fun c => c != Char.ofNat 0))

/-- The collaborators of the bridge.  `File` is the parser's AST type
(`*syntax.File`), `Err` the type of Go `error` values (`none` is `nil`), and `σ`
the state the collaborators act on. -/
structure Engine (File Err σ : Type) where
  /-- `ioutil.ReadFile(fname)` -/
  ReadFile : String → σ → (List Byte × Option Err) × σ
  /-- `syntax.NewParser().Parse(bytes.NewReader(src), fname)` -/
  Parse : List Byte → String → σ → (File × Option Err) × σ
  /-- `interp.New()` -/
  New : σ → (RunnerPtr × Option Err) × σ
  /-- `runner.Run(context.Background(), file)` -/
  Run : RunnerPtr → File → σ → Option Err × σ

/-- One recorded collaborator call. -/
inductive Event (File : Type) where
  | readFile (fname : String)
  | parse (src : List Byte) (name : String)
  | new
  | run (runner : RunnerPtr) (file : File)
  deriving DecidableEq, Repr

/-- The state a bridge call runs in: the engine-side state and the call log. -/
structure State (File σ : Type) where
  ext : σ
  log : List (Event File)

/-- How a Go function call ends: it returns a value, or it panics. -/
inductive Outcome (Err α : Type) where
  | returned (v : α)
  | panicked (err : Err)
  deriving DecidableEq, Repr

/-! ## The two exported functions -/

section Code

variable {File Err σ : Type}

/-- `NewRunner`, lines 40-46. -/
def NewRunner (E : Engine File Err σ) (s : State File σ) :
    Outcome Err RunnerHandle × State File σ :=
  match E.New s.ext with
  | ((_, some err), x) => (Outcome.panicked err, ⟨x, s.log ++ [Event.new]⟩)
  | ((r, none), x) => (Outcome.returned (Mint r), ⟨x, s.log ++ [Event.new]⟩)

/-- `RunScript`, lines 20-37.  The result is the `C.int` status. -/
def RunScript (E : Engine File Err σ) (path : CharPtr) (s : State File σ) :
    Outcome Err Int × State File σ :=
  let fname := GoString path
  match E.ReadFile fname s.ext with
  | ((_, some _), x1) => (Outcome.returned 1, ⟨x1, s.log ++ [Event.readFile fname]⟩)
  | ((src, none), x1) =>
    match E.Parse src fname x1 with
    | ((_, some _), x2) =>
      (Outcome.returned 1, ⟨x2, s.log ++ [Event.readFile fname] ++ [Event.parse src fname]⟩)
    | ((file, none), x2) =>
      match NewRunner E ⟨x2, s.log ++ [Event.readFile fname] ++ [Event.parse src fname]⟩ with
      | (Outcome.panicked err, s3) => (Outcome.panicked err, s3)
      | (Outcome.returned rh, s3) =>
        let runner := Recover rh
        match E.Run runner file s3.ext with
        | (some _, x4) => (Outcome.returned 1, ⟨x4, s3.log ++ [Event.run runner file]⟩)
        | (none, x4) => (Outcome.returned 0, ⟨x4, s3.log ++ [Event.run runner file]⟩)

/-- What the cgo export wrapper consults in the Go runtime when an exported
function hands a pointer result back to C. -/
structure Cgo (Err σ : Type) where
  /-- Is the pointer check on (`GODEBUG=cgocheck` other than 0)? -/
  check : Bool
  /-- The runtime's `cgoIsGoPointer`: does the address lie in Go-managed memory? -/
  isGoPointer : σ → Addr → Bool
  /-- The runtime's `isPinned`. -/
  isPinned : σ → Addr → Bool
  /-- The error value the check panics with. -/
  resultFail : Err

/-- The runtime's `cgoCheckResult` on a pointer result: with the check on, an
unpinned Go pointer is refused with a panic. -/
def cgoCheckResult (C : Cgo Err σ) (x : σ) (h : RunnerHandle) : Option Err :=
  if C.check && C.isGoPointer x h.addr && !C.isPinned x h.addr then some C.resultFail
  else none

/-- `NewRunner` as C calls it, line 39 (`//export NewRunner`): the export wrapper
calls the Go function and passes its result through `cgoCheckResult`. -/
def exportedNewRunner (C : Cgo Err σ) (E : Engine File Err σ) (s : State File σ) :
    Outcome Err RunnerHandle × State File σ :=
  match NewRunner E s with
  | (Outcome.panicked err, s1) => (Outcome.panicked err, s1)
  | (Outcome.returned rh, s1) =>
    match cgoCheckResult C s1.ext rh with
    | some err => (Outcome.panicked err, s1)
    | none => (Outcome.returned rh, s1)

/-! ## Vocabulary for the statements -/

/-- What `ReadFile` answers in the call `RunScript path` started in `s`. -/
def readRes (E : Engine File Err σ) (path : CharPtr) (s : State File σ) :
    (List Byte × Option Err) × σ :=
  E.ReadFile (GoString path) s.ext

/-- What the parser answers on the bytes that were read. -/
def parseRes (E : Engine File Err σ) (path : CharPtr) (s : State File σ) :
    (File × Option Err) × σ :=
  E.Parse (readRes E path s).1.1 (GoString path) (readRes E path s).2

/-- What `interp.New` answers after the parse. -/
def newRes (E : Engine File Err σ) (path : CharPtr) (s : State File σ) :
    (RunnerPtr × Option Err) × σ :=
  E.New (parseRes E path s).2

/-- What `Run` answers on the constructed runner and the parsed file. -/
def runRes (E : Engine File Err σ) (path : CharPtr) (s : State File σ) :
    Option Err × σ :=
  E.Run (newRes E path s).1.1 (parseRes E path s).1.1 (newRes E path s).2

/-- The file read returns no error. -/
abbrev ReadOk (E : Engine File Err σ) (path : CharPtr) (s : State File σ) : Prop :=
  (readRes E path s).1.2 = none

/-- The parser returns no error. -/
abbrev ParseOk (E : Engine File Err σ) (path : CharPtr) (s : State File σ) : Prop :=
  (parseRes E path s).1.2 = none

/-- The constructor `interp.New` returns no error. -/
abbrev NewOk (E : Engine File Err σ) (path : CharPtr) (s : State File σ) : Prop :=
  (newRes E path s).1.2 = none

/-- The call `runner.Run` returns no error. -/
abbrev RunOk (E : Engine File Err σ) (path : CharPtr) (s : State File σ) : Prop :=
  (runRes E path s).1 = none

/-- The status `RunScript` derives from the error value of `Run`, lines 33-36. -/
def statusOf (err : Option Err) : Int :=
  match err with
  | some _ => 1
  | none => 0

/-- The state `RunScript` is in once `Run` has been called. -/
def afterRun (E : Engine File Err σ) (path : CharPtr) (s : State File σ) : State File σ :=
  ⟨(runRes E path s).2,
    s.log ++ [Event.readFile (GoString path)]
      ++ [Event.parse (readRes E path s).1.1 (GoString path)] ++ [Event.new]
      ++ [Event.run (newRes E path s).1.1 (parseRes E path s).1.1]⟩

/-- The collaborator calls recorded during the call `RunScript path` started in `s`. -/
def callEvents (E : Engine File Err σ) (path : CharPtr) (s : State File σ) :
    List (Event File) :=
  (RunScript E path s).2.log.drop s.log.length

end Code

/-- The four stages of one `RunScript` call. -/
inductive Stage where
  | load
  | parse
  | construct
  | execute
  deriving DecidableEq, Repr

/-- The stage a recorded call belongs to. -/
def Event.stage {File : Type} : Event File → Stage
  | Event.readFile _ => Stage.load
  | Event.parse _ _ => Stage.parse
  | Event.new => Stage.construct
  | Event.run _ _ => Stage.execute

/-- The stages of a `RunScript` call in source order. -/
def pipeline : List Stage := [Stage.load, Stage.parse, Stage.construct, Stage.execute]

/-- Is the event a parser call? -/
def Event.isParse {File : Type} : Event File → Bool
  | Event.parse _ _ => true
  | _ => false

/-- Is the event a constructor call? -/
def Event.isNew {File : Type} : Event File → Bool
  | Event.new => true
  | _ => false

/-- Is the event a `Run` call? -/
def Event.isRun {File : Type} : Event File → Bool
  | Event.run _ _ => true
  | _ => false

/-! ## A test double for the engine

A small concrete engine, used to evaluate the bridge on concrete inputs.  Its
state counts the applications of each collaborator; its "AST" is the source
text. -/

/-- State of the test double: runners built so far, and how many times the file
read, the parser and `Run` have been applied. -/
structure MockState where
  heap : Nat
  reads : Nat
  parses : Nat
  runs : Nat
  deriving DecidableEq, Repr

/-- The bytes of a string of ASCII characters. -/
def bytesOf (s : String) : List Byte := s.toList.map (fun c => Fin.ofNat c.toNat)

/-- File system of the test double: three scripts, everything else unreadable. -/
def mockReadFile (fname : String) (x : MockState) :
    (List Byte × Option String) × MockState :=
  if fname = "hello.sh" then ((bytesOf "echo hello", none), { x with reads := x.reads + 1 })
  else if fname = "unclosed.sh" then
    ((bytesOf "if true; then", none), { x with reads := x.reads + 1 })
  else if fname = "false.sh" then ((bytesOf "false", none), { x with reads := x.reads + 1 })
  else (([], some "read error"), { x with reads := x.reads + 1 })

/-- Parser of the test double: rejects the unclosed `if`. -/
def mockParse (src : List Byte) (_name : String) (x : MockState) :
    (List Byte × Option String) × MockState :=
  if src = bytesOf "if true; then" then
    (([], some "parse error"), { x with parses := x.parses + 1 })
  else ((src, none), { x with parses := x.parses + 1 })

/-- Constructor of the test double: a bump allocator with room for `cap` runners. -/
def mockNew (cap : Nat) (x : MockState) : (RunnerPtr × Option String) × MockState :=
  if x.heap < cap then ((⟨4096 + 64 * x.heap⟩, none), { x with heap := x.heap + 1 })
  else ((⟨0⟩, some "out of memory"), x)

/-- Interpreter of the test double: the script `false` fails. -/
def mockRun (_r : RunnerPtr) (file : List Byte) (x : MockState) :
    Option String × MockState :=
  if file = bytesOf "false" then (some "exit status 1", { x with runs := x.runs + 1 })
  else (none, { x with runs := x.runs + 1 })

/-- The test double with room for `cap` runners. -/
def mockEngine (cap : Nat) : Engine (List Byte) String MockState where
  ReadFile := mockReadFile
  Parse := mockParse
  New := mockNew cap
  Run := mockRun

/-- A C string holding the given text followed by its terminator. -/
def cstr (s : String) : CharPtr := ⟨s.toList ++ [Char.ofNat 0]⟩

/-- The start state of the test double: nothing built, nothing called, empty log. -/
def mockStart : State (List Byte) MockState := ⟨⟨0, 0, 0, 0⟩, []⟩

/-- A runtime with the pointer check on, Go memory from address 4096 up, nothing
pinned. -/
def mockCgo : Cgo String MockState where
  check := true
  isGoPointer := fun _ a => decide (4096 ≤ a)
  isPinned := fun _ _ => false
  resultFail := "cgo result has Go pointer"

section Lemmas

variable {File Err σ : Type}

theorem newRunner_err (E : Engine File Err σ) (s : State File σ) (e : Err)
    (h : (E.New s.ext).1.2 = some e) :
    NewRunner E s = (Outcome.panicked e, ⟨(E.New s.ext).2, s.log ++ [Event.new]⟩) := by
  unfold NewRunner
  rcases hn : E.New s.ext with ⟨⟨r, err⟩, x⟩
  rw [hn] at h
  simp only at h
  subst h
  rfl

theorem newRunner_ok (E : Engine File Err σ) (s : State File σ)
    (h : (E.New s.ext).1.2 = none) :
    NewRunner E s
      = (Outcome.returned (Mint (E.New s.ext).1.1), ⟨(E.New s.ext).2, s.log ++ [Event.new]⟩) := by
  unfold NewRunner
  rcases hn : E.New s.ext with ⟨⟨r, err⟩, x⟩
  rw [hn] at h
  simp only at h
  subst h
  rfl

theorem exportedNewRunner_err (C : Cgo Err σ) (E : Engine File Err σ) (s : State File σ)
    (e : Err) (h : (E.New s.ext).1.2 = some e) :
    exportedNewRunner C E s = NewRunner E s := by
  unfold exportedNewRunner
  rw [newRunner_err E s e h]

theorem recover_mint (c : RunnerPtr) : Recover (Mint c) = c := rfl

theorem runScript_readErr (E : Engine File Err σ) (path : CharPtr) (s : State File σ)
    (h : ¬ ReadOk E path s) :
    RunScript E path s
      = (Outcome.returned 1, ⟨(readRes E path s).2, s.log ++ [Event.readFile (GoString path)]⟩) := by
  unfold ReadOk readRes at h
  unfold RunScript readRes
  dsimp only
  rcases hr : E.ReadFile (GoString path) s.ext with ⟨⟨src, err⟩, x1⟩
  rw [hr] at h
  cases err with
  | none => exact absurd rfl h
  | some e => rfl

theorem runScript_parseErr (E : Engine File Err σ) (path : CharPtr) (s : State File σ)
    (h1 : ReadOk E path s) (h2 : ¬ ParseOk E path s) :
    RunScript E path s
      = (Outcome.returned 1,
          ⟨(parseRes E path s).2,
            s.log ++ [Event.readFile (GoString path)]
              ++ [Event.parse (readRes E path s).1.1 (GoString path)]⟩) := by
  unfold ParseOk parseRes at h2
  unfold ReadOk at h1
  unfold RunScript parseRes
  dsimp only
  unfold readRes at *
  rcases hr : E.ReadFile (GoString path) s.ext with ⟨⟨src, err⟩, x1⟩
  simp only [hr] at h1 h2 ⊢
  subst h1
  rcases hp : E.Parse src (GoString path) x1 with ⟨⟨file, err⟩, x2⟩
  simp only [hp] at h2 ⊢
  cases err with
  | none => exact absurd rfl h2
  | some e => rfl

theorem runScript_newErr (E : Engine File Err σ) (path : CharPtr) (s : State File σ)
    (h1 : ReadOk E path s) (h2 : ParseOk E path s) (e : Err)
    (h3 : (newRes E path s).1.2 = some e) :
    RunScript E path s
      = (Outcome.panicked e,
          ⟨(newRes E path s).2,
            s.log ++ [Event.readFile (GoString path)]
              ++ [Event.parse (readRes E path s).1.1 (GoString path)] ++ [Event.new]⟩) := by
  unfold newRes at h3 ⊢
  unfold ParseOk at h2
  unfold parseRes at *
  unfold ReadOk at h1
  unfold RunScript
  dsimp only
  unfold readRes at *
  rcases hr : E.ReadFile (GoString path) s.ext with ⟨⟨src, err⟩, x1⟩
  simp only [hr] at h1 h2 h3 ⊢
  subst h1
  rcases hp : E.Parse src (GoString path) x1 with ⟨⟨file, err⟩, x2⟩
  simp only [hp] at h2 h3 ⊢
  subst h2
  dsimp only
  rw [newRunner_err E _ e h3]

theorem runScript_reachesRun (E : Engine File Err σ) (path : CharPtr) (s : State File σ)
    (h1 : ReadOk E path s) (h2 : ParseOk E path s) (h3 : NewOk E path s) :
    RunScript E path s
      = (Outcome.returned (statusOf (runRes E path s).1), afterRun E path s) := by
  unfold afterRun runRes
  unfold NewOk at h3
  unfold newRes at *
  unfold ParseOk at h2
  unfold parseRes at *
  unfold ReadOk at h1
  unfold RunScript
  dsimp only
  unfold readRes at *
  rcases hr : E.ReadFile (GoString path) s.ext with ⟨⟨src, err⟩, x1⟩
  simp only [hr] at h1 h2 h3 ⊢
  subst h1
  rcases hp : E.Parse src (GoString path) x1 with ⟨⟨file, err⟩, x2⟩
  simp only [hp] at h2 h3 ⊢
  subst h2
  dsimp only
  rw [newRunner_ok E _ h3]
  simp only [recover_mint]
  rcases hx : E.Run (E.New x2).1.1 file (E.New x2).2 with ⟨err, x4⟩
  cases err <;> rfl

theorem not_newOk_iff (E : Engine File Err σ) (path : CharPtr) (s : State File σ) :
    ¬ NewOk E path s ↔ ∃ e, (newRes E path s).1.2 = some e := by
  unfold NewOk
  cases (newRes E path s).1.2 <;> simp

theorem callEvents_readErr (E : Engine File Err σ) (path : CharPtr) (s : State File σ)
    (h : ¬ ReadOk E path s) :
    callEvents E path s = [Event.readFile (GoString path)] := by
  unfold callEvents
  rw [runScript_readErr E path s h]
  simp

theorem callEvents_parseErr (E : Engine File Err σ) (path : CharPtr) (s : State File σ)
    (h1 : ReadOk E path s) (h2 : ¬ ParseOk E path s) :
    callEvents E path s
      = [Event.readFile (GoString path), Event.parse (readRes E path s).1.1 (GoString path)] := by
  unfold callEvents
  rw [runScript_parseErr E path s h1 h2]
  simp

theorem callEvents_newErr (E : Engine File Err σ) (path : CharPtr) (s : State File σ)
    (h1 : ReadOk E path s) (h2 : ParseOk E path s) (h3 : ¬ NewOk E path s) :
    callEvents E path s
      = [Event.readFile (GoString path), Event.parse (readRes E path s).1.1 (GoString path),
          Event.new] := by
  obtain ⟨e, he⟩ := (not_newOk_iff E path s).1 h3
  unfold callEvents
  rw [runScript_newErr E path s h1 h2 e he]
  simp

theorem callEvents_reachesRun (E : Engine File Err σ) (path : CharPtr) (s : State File σ)
    (h1 : ReadOk E path s) (h2 : ParseOk E path s) (h3 : NewOk E path s) :
    callEvents E path s
      = [Event.readFile (GoString path), Event.parse (readRes E path s).1.1 (GoString path),
          Event.new, Event.run (newRes E path s).1.1 (parseRes E path s).1.1] := by
  unfold callEvents
  rw [runScript_reachesRun E path s h1 h2 h3]
  simp [afterRun]

theorem log_eq_append_callEvents (E : Engine File Err σ) (path : CharPtr) (s : State File σ) :
    (RunScript E path s).2.log = s.log ++ callEvents E path s := by
  by_cases h1 : ReadOk E path s
  · by_cases h2 : ParseOk E path s
    · by_cases h3 : NewOk E path s
      · rw [callEvents_reachesRun E path s h1 h2 h3, runScript_reachesRun E path s h1 h2 h3]
        simp [afterRun]
      · rw [callEvents_newErr E path s h1 h2 h3]
        obtain ⟨e, he⟩ := (not_newOk_iff E path s).1 h3
        rw [runScript_newErr E path s h1 h2 e he]
        simp
    · rw [callEvents_parseErr E path s h1 h2, runScript_parseErr E path s h1 h2]
      simp
  · rw [callEvents_readErr E path s h1, runScript_readErr E path s h1]

theorem statusOf_eq_zero_iff (err : Option Err) : statusOf err = 0 ↔ err = none := by
  cases err <;> simp [statusOf]

theorem statusOf_of_ne_none (err : Option Err) (h : err ≠ none) : statusOf err = 1 := by
  cases err with
  | none => exact absurd rfl h
  | some e => rfl

end Lemmas

/-! ## Status of a `RunScript` call -/

section Status

variable {File Err σ : Type}

/-- C1: `RunScript` returns status 0 exactly when the file read, the parser, the
constructor `interp.New` and `runner.Run` all return no error in that call; in
particular a script that is read, parsed, given a runner and run without error
yields 0, and a script the parser rejects yields a returned nonzero status. -/
theorem runScript_status_zero_iff (E : Engine File Err σ) (path : CharPtr) (s : State File σ) :
    ((RunScript E path s).1 = Outcome.returned 0
        ↔ ReadOk E path s ∧ ParseOk E path s ∧ NewOk E path s ∧ RunOk E path s)
    ∧ (ReadOk E path s → ParseOk E path s → NewOk E path s → RunOk E path s →
        (RunScript E path s).1 = Outcome.returned 0)
    ∧ (ReadOk E path s → ¬ ParseOk E path s →
        ∃ st : Int, (RunScript E path s).1 = Outcome.returned st ∧ st ≠ 0) := by
  have key : (RunScript E path s).1 = Outcome.returned 0
      ↔ ReadOk E path s ∧ ParseOk E path s ∧ NewOk E path s ∧ RunOk E path s := by
    by_cases h1 : ReadOk E path s
    · by_cases h2 : ParseOk E path s
      · by_cases h3 : NewOk E path s
        · rw [runScript_reachesRun E path s h1 h2 h3]
          simp only [Outcome.returned.injEq, statusOf_eq_zero_iff]
          unfold RunOk
          tauto
        · obtain ⟨e, he⟩ := (not_newOk_iff E path s).1 h3
          rw [runScript_newErr E path s h1 h2 e he]
          simp [h3]
      · rw [runScript_parseErr E path s h1 h2]
        simp [h2]
    · rw [runScript_readErr E path s h1]
      simp [h1]
  refine ⟨key, fun h1 h2 h3 h4 => key.2 ⟨h1, h2, h3, h4⟩, fun h1 h2 => ⟨1, ?_, by decide⟩⟩
  rw [runScript_parseErr E path s h1 h2]

/-- C2 (amended): when the file read fails, or the parse fails, or `runner.Run`
returns an error, `RunScript` returns, and the status is 1 in all three cases; when
the constructor fails, `RunScript` returns no status: it panics with the
constructor's error. -/
theorem runScript_failure_status (E : Engine File Err σ) (path : CharPtr) (s : State File σ) :
    (¬ ReadOk E path s
        ∨ (ReadOk E path s ∧ ¬ ParseOk E path s)
        ∨ (ReadOk E path s ∧ ParseOk E path s ∧ NewOk E path s ∧ ¬ RunOk E path s) →
      (RunScript E path s).1 = Outcome.returned 1)
    ∧ (ReadOk E path s ∧ ParseOk E path s ∧ ¬ NewOk E path s →
      (∃ e, (newRes E path s).1.2 = some e ∧ (RunScript E path s).1 = Outcome.panicked e)
        ∧ ∀ st : Int, (RunScript E path s).1 ≠ Outcome.returned st) := by
  constructor
  · rintro (h1 | ⟨h1, h2⟩ | ⟨h1, h2, h3, h4⟩)
    · rw [runScript_readErr E path s h1]
    · rw [runScript_parseErr E path s h1 h2]
    · rw [runScript_reachesRun E path s h1 h2 h3, statusOf_of_ne_none _ h4]
  · rintro ⟨h1, h2, h3⟩
    obtain ⟨e, he⟩ := (not_newOk_iff E path s).1 h3
    rw [runScript_newErr E path s h1 h2 e he]
    exact ⟨⟨e, he, rfl⟩, fun st h => by cases h⟩

/-- C3: when the file read fails, `RunScript` returns status 1, and the file read
is the only collaborator call of that call: the engine is left in the state the
one `ReadFile` application answered, so neither the parser nor the constructor
nor `Run` was applied to it, and the log holds the read and nothing else (the
parser receives no bytes, no runner is constructed, `Run` is not invoked). -/
theorem runScript_read_failure (E : Engine File Err σ) (path : CharPtr) (s : State File σ)
    (h : ¬ ReadOk E path s) :
    RunScript E path s
      = (Outcome.returned 1,
          ⟨(E.ReadFile (GoString path) s.ext).2, s.log ++ [Event.readFile (GoString path)]⟩)
    ∧ (RunScript E path s).1 = Outcome.returned 1
    ∧ (1 : Int) ≠ 0
    ∧ (RunScript E path s).2.ext = (E.ReadFile (GoString path) s.ext).2
    ∧ (RunScript E path s).2.log = s.log ++ callEvents E path s
    ∧ callEvents E path s = [Event.readFile (GoString path)]
    ∧ (callEvents E path s).countP Event.isParse = 0
    ∧ (∀ src name, Event.parse src name ∉ callEvents E path s)
    ∧ (callEvents E path s).countP Event.isNew = 0
    ∧ (callEvents E path s).countP Event.isRun = 0 := by
  have full := runScript_readErr E path s h
  refine ⟨full, ?_, by decide, ?_, log_eq_append_callEvents E path s,
    callEvents_readErr E path s h, ?_, ?_, ?_, ?_⟩
  · rw [full]
  · rw [full]; rfl
  · rw [callEvents_readErr E path s h]; rfl
  · intro src name
    rw [callEvents_readErr E path s h]
    simp
  · rw [callEvents_readErr E path s h]; rfl
  · rw [callEvents_readErr E path s h]; rfl

/-- C4: when the file is read but the parser rejects its content, `RunScript`
returns status 1; the engine is left in the state that the read followed by one
parser application (on the bytes read, under the path as name) answered, so the
parser was applied once and neither the constructor nor `Run` was applied; the
log holds the read and the one parse and nothing else. -/
theorem runScript_parse_failure (E : Engine File Err σ) (path : CharPtr) (s : State File σ)
    (h1 : ReadOk E path s) (h2 : ¬ ParseOk E path s) :
    RunScript E path s
      = (Outcome.returned 1,
          ⟨(E.Parse (E.ReadFile (GoString path) s.ext).1.1 (GoString path)
              (E.ReadFile (GoString path) s.ext).2).2,
            s.log ++ [Event.readFile (GoString path)]
              ++ [Event.parse (E.ReadFile (GoString path) s.ext).1.1 (GoString path)]⟩)
    ∧ (RunScript E path s).1 = Outcome.returned 1
    ∧ (RunScript E path s).2.ext
        = (E.Parse (E.ReadFile (GoString path) s.ext).1.1 (GoString path)
            (E.ReadFile (GoString path) s.ext).2).2
    ∧ (RunScript E path s).2.log = s.log ++ callEvents E path s
    ∧ callEvents E path s
        = [Event.readFile (GoString path), Event.parse (readRes E path s).1.1 (GoString path)]
    ∧ (callEvents E path s).countP Event.isParse = 1
    ∧ (callEvents E path s).countP Event.isNew = 0
    ∧ (callEvents E path s).countP Event.isRun = 0 := by
  have full := runScript_parseErr E path s h1 h2
  refine ⟨full, ?_, ?_, log_eq_append_callEvents E path s,
    callEvents_parseErr E path s h1 h2, ?_, ?_, ?_⟩
  · rw [full]
  · rw [full]; rfl
  · rw [callEvents_parseErr E path s h1 h2]; rfl
  · rw [callEvents_parseErr E path s h1 h2]; rfl
  · rw [callEvents_parseErr E path s h1 h2]; rfl

end Status

/-! ## The handle layer and `NewRunner` -/

section Handles

variable {File Err σ : Type}

/-- C6: when `interp.New` returns an error, `NewRunner` panics with it and returns
no handle, as a Go call and as a call from C alike; and a `RunScript` call whose
read and parse succeed and whose constructor fails panics with that error too:
it returns no status, and the engine is left in the state the failed constructor
call answered, so `Run` was not applied; the log has no `Run` entry. -/
theorem construction_failure_fatal (C : Cgo Err σ) (E : Engine File Err σ)
    (path : CharPtr) (s : State File σ) :
    (∀ e, (E.New s.ext).1.2 = some e →
        NewRunner E s = (Outcome.panicked e, ⟨(E.New s.ext).2, s.log ++ [Event.new]⟩)
          ∧ exportedNewRunner C E s
              = (Outcome.panicked e, ⟨(E.New s.ext).2, s.log ++ [Event.new]⟩)
          ∧ (∀ h : RunnerHandle, (NewRunner E s).1 ≠ Outcome.returned h)
          ∧ (∀ h : RunnerHandle, (exportedNewRunner C E s).1 ≠ Outcome.returned h))
    ∧ (∀ e, ReadOk E path s → ParseOk E path s → (newRes E path s).1.2 = some e →
        RunScript E path s
            = (Outcome.panicked e,
                ⟨(E.New (parseRes E path s).2).2,
                  s.log ++ [Event.readFile (GoString path)]
                    ++ [Event.parse (readRes E path s).1.1 (GoString path)] ++ [Event.new]⟩)
          ∧ (RunScript E path s).1 = Outcome.panicked e
          ∧ (∀ st : Int, (RunScript E path s).1 ≠ Outcome.returned st)
          ∧ (RunScript E path s).2.ext = (E.New (parseRes E path s).2).2
          ∧ (callEvents E path s).countP Event.isRun = 0
          ∧ ∀ r file, Event.run r file ∉ callEvents E path s) := by
  refine ⟨?_, ?_⟩
  · intro e he
    have hx := exportedNewRunner_err C E s e he
    rw [hx, newRunner_err E s e he]
    exact ⟨rfl, rfl, fun h hh => (by cases hh), fun h hh => (by cases hh)⟩
  · intro e h1 h2 he
    have h3 : ¬ NewOk E path s := (not_newOk_iff E path s).2 ⟨e, he⟩
    have full := runScript_newErr E path s h1 h2 e he
    rw [callEvents_newErr E path s h1 h2 h3]
    refine ⟨full, ?_, ?_, ?_, rfl, ?_⟩
    · rw [full]
    · rw [full]; exact fun st h => by cases h
    · rw [full]; rfl
    · intro r file
      simp

/-- C7: recovering the handle minted for a runner pointer gives that pointer back;
and in a `RunScript` call that reaches execution, the handle `NewRunner` hands
over is the one minted for the runner the constructor built, recovering it gives
that runner, and the status and final engine state of the call are those of
`Run` applied to that recovered runner, in the state the constructor left. -/
theorem handle_round_trip (E : Engine File Err σ) (path : CharPtr) (s : State File σ)
    (c : RunnerPtr) :
    Recover (Mint c) = c
    ∧ (ReadOk E path s → ParseOk E path s → NewOk E path s →
        ∃ (h : RunnerHandle) (s3 : State File σ),
          NewRunner E ⟨(parseRes E path s).2,
              s.log ++ [Event.readFile (GoString path)]
                ++ [Event.parse (readRes E path s).1.1 (GoString path)]⟩
            = (Outcome.returned h, s3)
          ∧ h = Mint (E.New (parseRes E path s).2).1.1
          ∧ Recover h = (E.New (parseRes E path s).2).1.1
          ∧ s3.ext = (E.New (parseRes E path s).2).2
          ∧ RunScript E path s
              = (Outcome.returned (statusOf (E.Run (Recover h) (parseRes E path s).1.1 s3.ext).1),
                  ⟨(E.Run (Recover h) (parseRes E path s).1.1 s3.ext).2,
                    s3.log ++ [Event.run (Recover h) (parseRes E path s).1.1]⟩)
          ∧ (RunScript E path s).1
              = Outcome.returned (statusOf (E.Run (E.New (parseRes E path s).2).1.1
                  (parseRes E path s).1.1 (E.New (parseRes E path s).2).2).1)
          ∧ (RunScript E path s).2.ext
              = (E.Run (E.New (parseRes E path s).2).1.1
                  (parseRes E path s).1.1 (E.New (parseRes E path s).2).2).2
          ∧ (callEvents E path s).getLast?
              = some (Event.run (E.New (parseRes E path s).2).1.1 (parseRes E path s).1.1)) := by
  refine ⟨rfl, fun h1 h2 h3 => ?_⟩
  have full := runScript_reachesRun E path s h1 h2 h3
  refine ⟨Mint (E.New (parseRes E path s).2).1.1, _,
    newRunner_ok E ⟨(parseRes E path s).2, _⟩ h3, rfl, rfl, rfl, ?_, ?_, ?_, ?_⟩
  · rw [full]; rfl
  · rw [full]; rfl
  · rw [full]; rfl
  · rw [callEvents_reachesRun E path s h1 h2 h3]
    rfl

end Handles

/-! ## The pipeline of one `RunScript` call -/

section Pipeline

variable {File Err σ : Type}

/-- C9: a `RunScript` call goes forward only.  Its outcome and the engine state
it ends in are those of the read alone if the read fails; of the read and then
the parse if the parse fails; of read, parse and then the constructor if the
constructor fails; and of read, parse, constructor and then `Run` otherwise:
each collaborator is applied at most once, to the state the stage before it
left, and none after the first failure.  The log agrees: the stages recorded are
an initial segment of load, parse, construct, execute without repetition, loading
always occurs, and each later stage occurs exactly when all stages before it
succeeded. -/
theorem runScript_forward_only (E : Engine File Err σ) (path : CharPtr) (s : State File σ) :
    (¬ ReadOk E path s →
        RunScript E path s
          = (Outcome.returned 1,
              ⟨(E.ReadFile (GoString path) s.ext).2,
                s.log ++ [Event.readFile (GoString path)]⟩))
    ∧ (ReadOk E path s → ¬ ParseOk E path s →
        RunScript E path s
          = (Outcome.returned 1,
              ⟨(E.Parse (readRes E path s).1.1 (GoString path) (readRes E path s).2).2,
                s.log ++ [Event.readFile (GoString path)]
                  ++ [Event.parse (readRes E path s).1.1 (GoString path)]⟩))
    ∧ (∀ e, ReadOk E path s → ParseOk E path s → (newRes E path s).1.2 = some e →
        RunScript E path s
          = (Outcome.panicked e,
              ⟨(E.New (parseRes E path s).2).2,
                s.log ++ [Event.readFile (GoString path)]
                  ++ [Event.parse (readRes E path s).1.1 (GoString path)] ++ [Event.new]⟩))
    ∧ (ReadOk E path s → ParseOk E path s → NewOk E path s →
        RunScript E path s
          = (Outcome.returned (statusOf
                (E.Run (newRes E path s).1.1 (parseRes E path s).1.1 (newRes E path s).2).1),
              ⟨(E.Run (newRes E path s).1.1 (parseRes E path s).1.1 (newRes E path s).2).2,
                s.log ++ [Event.readFile (GoString path)]
                  ++ [Event.parse (readRes E path s).1.1 (GoString path)] ++ [Event.new]
                  ++ [Event.run (newRes E path s).1.1 (parseRes E path s).1.1]⟩))
    ∧ readRes E path s = E.ReadFile (GoString path) s.ext
    ∧ parseRes E path s
        = E.Parse (E.ReadFile (GoString path) s.ext).1.1 (GoString path)
            (E.ReadFile (GoString path) s.ext).2
    ∧ newRes E path s = E.New (parseRes E path s).2
    ∧ (RunScript E path s).2.log = s.log ++ callEvents E path s
    ∧ (∃ rest, (callEvents E path s).map Event.stage ++ rest = pipeline)
    ∧ ((callEvents E path s).map Event.stage).Nodup
    ∧ (∀ st, ((callEvents E path s).map Event.stage).count st ≤ 1)
    ∧ Stage.load ∈ (callEvents E path s).map Event.stage
    ∧ (Stage.parse ∈ (callEvents E path s).map Event.stage ↔ ReadOk E path s)
    ∧ (Stage.construct ∈ (callEvents E path s).map Event.stage
        ↔ ReadOk E path s ∧ ParseOk E path s)
    ∧ (Stage.execute ∈ (callEvents E path s).map Event.stage
        ↔ ReadOk E path s ∧ ParseOk E path s ∧ NewOk E path s) := by
  have hnd : ((callEvents E path s).map Event.stage).Nodup
      ∧ (∃ rest, (callEvents E path s).map Event.stage ++ rest = pipeline)
      ∧ Stage.load ∈ (callEvents E path s).map Event.stage
      ∧ (Stage.parse ∈ (callEvents E path s).map Event.stage ↔ ReadOk E path s)
      ∧ (Stage.construct ∈ (callEvents E path s).map Event.stage
          ↔ ReadOk E path s ∧ ParseOk E path s)
      ∧ (Stage.execute ∈ (callEvents E path s).map Event.stage
          ↔ ReadOk E path s ∧ ParseOk E path s ∧ NewOk E path s) := by
    by_cases h1 : ReadOk E path s
    · by_cases h2 : ParseOk E path s
      · by_cases h3 : NewOk E path s
        · rw [callEvents_reachesRun E path s h1 h2 h3]
          refine ⟨by simp [Event.stage], ⟨[], rfl⟩, ?_, ?_, ?_, ?_⟩ <;>
            (simp [Event.stage] <;> tauto)
        · rw [callEvents_newErr E path s h1 h2 h3]
          refine ⟨by simp [Event.stage], ⟨[Stage.execute], rfl⟩, ?_, ?_, ?_, ?_⟩ <;>
            (simp [Event.stage] <;> tauto)
      · rw [callEvents_parseErr E path s h1 h2]
        refine ⟨by simp [Event.stage], ⟨[Stage.construct, Stage.execute], rfl⟩,
          ?_, ?_, ?_, ?_⟩ <;>
          (simp [Event.stage] <;> tauto)
    · rw [callEvents_readErr E path s h1]
      refine ⟨by simp [Event.stage],
        ⟨[Stage.parse, Stage.construct, Stage.execute], rfl⟩, ?_, ?_, ?_, ?_⟩ <;>
        (simp [Event.stage] <;> tauto)
  obtain ⟨n, p, l, a, b, c⟩ := hnd
  exact ⟨fun h1 => runScript_readErr E path s h1,
    fun h1 h2 => runScript_parseErr E path s h1 h2,
    fun e h1 h2 he => runScript_newErr E path s h1 h2 e he,
    fun h1 h2 h3 => runScript_reachesRun E path s h1 h2 h3,
    rfl, rfl, rfl,
    log_eq_append_callEvents E path s, p, n,
    fun st => List.nodup_iff_count_le_one.1 n st, l, a, b, c⟩

/-- C10: in a `RunScript` call the file read is of the path given; the parser is
applied to the bytes that read returned, under the path as source name, in the
state the read left; and when execution is reached the status and the final
engine state are those of one application of `Run` to the runner the
constructor returned in this call and the AST the parser returned in this call,
in the state that constructor call left.  The log agrees: its only read, parse
and `Run` entries carry those arguments, and a call that reaches execution
records exactly one read, one parse, one construction and one `Run`, in that
order. -/
theorem runScript_data_flow (E : Engine File Err σ) (path : CharPtr) (s : State File σ) :
    (¬ ReadOk E path s →
        RunScript E path s
          = (Outcome.returned 1,
              ⟨(E.ReadFile (GoString path) s.ext).2,
                s.log ++ [Event.readFile (GoString path)]⟩))
    ∧ (ReadOk E path s → ¬ ParseOk E path s →
        RunScript E path s
          = (Outcome.returned 1,
              ⟨(E.Parse (E.ReadFile (GoString path) s.ext).1.1 (GoString path)
                  (E.ReadFile (GoString path) s.ext).2).2,
                s.log ++ [Event.readFile (GoString path)]
                  ++ [Event.parse (E.ReadFile (GoString path) s.ext).1.1 (GoString path)]⟩))
    ∧ parseRes E path s
        = E.Parse (E.ReadFile (GoString path) s.ext).1.1 (GoString path)
            (E.ReadFile (GoString path) s.ext).2
    ∧ newRes E path s = E.New (parseRes E path s).2
    ∧ (ReadOk E path s → ParseOk E path s → NewOk E path s →
        RunScript E path s
          = (Outcome.returned (statusOf
                (E.Run (newRes E path s).1.1 (parseRes E path s).1.1 (newRes E path s).2).1),
              ⟨(E.Run (newRes E path s).1.1 (parseRes E path s).1.1 (newRes E path s).2).2,
                s.log ++ [Event.readFile (GoString path)]
                  ++ [Event.parse (readRes E path s).1.1 (GoString path)] ++ [Event.new]
                  ++ [Event.run (newRes E path s).1.1 (parseRes E path s).1.1]⟩))
    ∧ (∀ e, ReadOk E path s → ParseOk E path s → (newRes E path s).1.2 = some e →
        RunScript E path s
          = (Outcome.panicked e,
              ⟨(E.New (parseRes E path s).2).2,
                s.log ++ [Event.readFile (GoString path)]
                  ++ [Event.parse (readRes E path s).1.1 (GoString path)] ++ [Event.new]⟩))
    ∧ (∀ fname, Event.readFile fname ∈ callEvents E path s → fname = GoString path)
    ∧ (∀ src name, Event.parse src name ∈ callEvents E path s →
        ReadOk E path s ∧ src = (readRes E path s).1.1 ∧ name = GoString path)
    ∧ (ReadOk E path s →
        (callEvents E path s).take 2
            = [Event.readFile (GoString path),
                Event.parse (readRes E path s).1.1 (GoString path)]
          ∧ (callEvents E path s).countP Event.isParse = 1)
    ∧ (∀ r file, Event.run r file ∈ callEvents E path s →
        ReadOk E path s ∧ ParseOk E path s ∧ NewOk E path s
          ∧ r = (newRes E path s).1.1 ∧ file = (parseRes E path s).1.1)
    ∧ (ReadOk E path s → ParseOk E path s → NewOk E path s →
        callEvents E path s
            = [Event.readFile (GoString path),
                Event.parse (readRes E path s).1.1 (GoString path),
                Event.new,
                Event.run (newRes E path s).1.1 (parseRes E path s).1.1]
          ∧ (callEvents E path s).countP Event.isRun = 1
          ∧ (callEvents E path s).countP Event.isNew = 1) := by
  refine ⟨fun h1 => runScript_readErr E path s h1,
    fun h1 h2 => runScript_parseErr E path s h1 h2, rfl, rfl,
    fun h1 h2 h3 => runScript_reachesRun E path s h1 h2 h3,
    fun e h1 h2 he => runScript_newErr E path s h1 h2 e he, ?_⟩
  by_cases h1 : ReadOk E path s
  · by_cases h2 : ParseOk E path s
    · by_cases h3 : NewOk E path s
      · rw [callEvents_reachesRun E path s h1 h2 h3]
        refine ⟨?_, ?_, fun _ => ⟨rfl, rfl⟩, ?_, fun _ _ _ => ⟨rfl, rfl, rfl⟩⟩
        · intro fname h; simpa using h
        · intro src name h
          simp only [List.mem_cons, Event.parse.injEq, reduceCtorEq, false_or,
            List.mem_singleton, or_false, List.not_mem_nil] at h
          exact ⟨h1, h.1, h.2⟩
        · intro r file h
          simp only [List.mem_cons, Event.run.injEq, reduceCtorEq, false_or,
            List.mem_singleton, or_false, List.not_mem_nil] at h
          exact ⟨h1, h2, h3, h.1, h.2⟩
      · rw [callEvents_newErr E path s h1 h2 h3]
        refine ⟨?_, ?_, fun _ => ⟨rfl, rfl⟩, ?_, fun _ _ h => absurd h h3⟩
        · intro fname h; simpa using h
        · intro src name h
          simp only [List.mem_cons, Event.parse.injEq, reduceCtorEq, false_or,
            List.mem_singleton, or_false, List.not_mem_nil] at h
          exact ⟨h1, h.1, h.2⟩
        · intro r file h
          simp at h
    · rw [callEvents_parseErr E path s h1 h2]
      refine ⟨?_, ?_, fun _ => ⟨rfl, rfl⟩, ?_, fun _ h _ => absurd h h2⟩
      · intro fname h; simpa using h
      · intro src name h
        simp only [List.mem_cons, Event.parse.injEq, reduceCtorEq, false_or,
          List.mem_singleton, or_false, List.not_mem_nil] at h
        exact ⟨h1, h.1, h.2⟩
      · intro r file h
        simp at h
  · rw [callEvents_readErr E path s h1]
    refine ⟨?_, ?_, fun h => absurd h h1, ?_, fun h _ _ => absurd h h1⟩
    · intro fname h; simpa using h
    · intro src name h
      simp at h
    · intro r file h
      simp at h

end Pipeline

/-! ## The bridge on the test double -/

/-- C1 at concrete inputs: `hello.sh` passes all four stages and yields 0; the
unclosed `if` is read, rejected by the parser, and yields a nonzero status. -/
theorem runScript_status_zero_iff_witness :
    (RunScript (mockEngine 2) (cstr "hello.sh") mockStart).1 = Outcome.returned 0
    ∧ ∃ st : Int,
        (RunScript (mockEngine 2) (cstr "unclosed.sh") mockStart).1 = Outcome.returned st
          ∧ st ≠ 0 :=
  ⟨(runScript_status_zero_iff (mockEngine 2) (cstr "hello.sh") mockStart).2.1
      (by decide) (by decide) (by decide) (by decide),
    (runScript_status_zero_iff (mockEngine 2) (cstr "unclosed.sh") mockStart).2.2
      (by decide) (by decide)⟩

/-- C2 as stated fails: with a constructor that reports an error, after a
successful read and parse, `RunScript` does not return 1; it panics. -/
theorem runScript_construction_failure_not_one :
    ReadOk (mockEngine 0) (cstr "hello.sh") mockStart
    ∧ ParseOk (mockEngine 0) (cstr "hello.sh") mockStart
    ∧ (newRes (mockEngine 0) (cstr "hello.sh") mockStart).1.2 = some "out of memory"
    ∧ (RunScript (mockEngine 0) (cstr "hello.sh") mockStart).1 ≠ Outcome.returned 1
    ∧ (RunScript (mockEngine 0) (cstr "hello.sh") mockStart).1
        = Outcome.panicked "out of memory" := by
  decide

/-- C2 (amended) at concrete inputs: an unreadable path, the unclosed `if` and the
failing script `false` all yield 1. -/
theorem runScript_failure_status_witness :
    (RunScript (mockEngine 2) (cstr "missing.sh") mockStart).1 = Outcome.returned 1
    ∧ (RunScript (mockEngine 2) (cstr "unclosed.sh") mockStart).1 = Outcome.returned 1
    ∧ (RunScript (mockEngine 2) (cstr "false.sh") mockStart).1 = Outcome.returned 1
    ∧ ∀ st : Int, (RunScript (mockEngine 0) (cstr "hello.sh") mockStart).1
        ≠ Outcome.returned st :=
  ⟨(runScript_failure_status (mockEngine 2) (cstr "missing.sh") mockStart).1
      (Or.inl (by decide)),
    (runScript_failure_status (mockEngine 2) (cstr "unclosed.sh") mockStart).1
      (Or.inr (Or.inl ⟨by decide, by decide⟩)),
    (runScript_failure_status (mockEngine 2) (cstr "false.sh") mockStart).1
      (Or.inr (Or.inr ⟨by decide, by decide, by decide, by decide⟩)),
    ((runScript_failure_status (mockEngine 0) (cstr "hello.sh") mockStart).2
      ⟨by decide, by decide, by decide⟩).2⟩

/-- C3 at a concrete input: a path that cannot be read. -/
theorem runScript_read_failure_witness :
    ¬ ReadOk (mockEngine 2) (cstr "missing.sh") mockStart
    ∧ RunScript (mockEngine 2) (cstr "missing.sh") mockStart
        = (Outcome.returned 1, ⟨⟨0, 1, 0, 0⟩, [Event.readFile "missing.sh"]⟩)
    ∧ callEvents (mockEngine 2) (cstr "missing.sh") mockStart = [Event.readFile "missing.sh"] :=
  ⟨by decide,
    (runScript_read_failure (mockEngine 2) (cstr "missing.sh") mockStart (by decide)).1,
    (runScript_read_failure (mockEngine 2) (cstr "missing.sh") mockStart
      (by decide)).2.2.2.2.2.1⟩

/-- C4 at a concrete input: the unclosed `if`. -/
theorem runScript_parse_failure_witness :
    ReadOk (mockEngine 2) (cstr "unclosed.sh") mockStart
    ∧ ¬ ParseOk (mockEngine 2) (cstr "unclosed.sh") mockStart
    ∧ RunScript (mockEngine 2) (cstr "unclosed.sh") mockStart
        = (Outcome.returned 1,
            ⟨⟨0, 1, 1, 0⟩, [Event.readFile "unclosed.sh",
                  Event.parse (bytesOf "if true; then") "unclosed.sh"]⟩)
    ∧ (callEvents (mockEngine 2) (cstr "unclosed.sh") mockStart).countP Event.isParse = 1
    ∧ (callEvents (mockEngine 2) (cstr "unclosed.sh") mockStart).countP Event.isNew = 0 :=
  ⟨by decide, by decide,
    (runScript_parse_failure (mockEngine 2) (cstr "unclosed.sh") mockStart
      (by decide) (by decide)).1,
    (runScript_parse_failure (mockEngine 2) (cstr "unclosed.sh") mockStart
      (by decide) (by decide)).2.2.2.2.2.1,
    (runScript_parse_failure (mockEngine 2) (cstr "unclosed.sh") mockStart
      (by decide) (by decide)).2.2.2.2.2.2.1⟩

/-- C6 at a concrete input: a constructor with no room left.  After the panic the
test double has been read once and parsed once and has run nothing. -/
theorem construction_failure_fatal_witness :
    NewRunner (mockEngine 0) mockStart
      = (Outcome.panicked "out of memory", ⟨⟨0, 0, 0, 0⟩, [Event.new]⟩)
    ∧ RunScript (mockEngine 0) (cstr "hello.sh") mockStart
        = (Outcome.panicked "out of memory",
            ⟨⟨0, 1, 1, 0⟩,
              [Event.readFile "hello.sh", Event.parse (bytesOf "echo hello") "hello.sh",
                Event.new]⟩)
    ∧ (callEvents (mockEngine 0) (cstr "hello.sh") mockStart).countP Event.isRun = 0 :=
  ⟨((construction_failure_fatal mockCgo (mockEngine 0) (cstr "hello.sh") mockStart).1
      "out of memory" (by decide)).1,
    ((construction_failure_fatal mockCgo (mockEngine 0) (cstr "hello.sh") mockStart).2
      "out of memory" (by decide) (by decide) (by decide)).1,
    ((construction_failure_fatal mockCgo (mockEngine 0) (cstr "hello.sh") mockStart).2
      "out of memory" (by decide) (by decide) (by decide)).2.2.2.2.1⟩

/-- C7 at a concrete input: `false.sh` is run on the runner built at address 4096,
and the status is the one `Run` answered there. -/
theorem handle_round_trip_witness :
    Recover (Mint ⟨4096⟩) = ⟨4096⟩
    ∧ ∃ (h : RunnerHandle) (s3 : State (List Byte) MockState),
        h = ⟨4096⟩
        ∧ Recover h = ⟨4096⟩
        ∧ s3.ext = ⟨1, 1, 1, 0⟩
        ∧ RunScript (mockEngine 2) (cstr "false.sh") mockStart
            = (Outcome.returned 1,
                ⟨⟨1, 1, 1, 1⟩, s3.log ++ [Event.run ⟨4096⟩ (bytesOf "false")]⟩) :=
  ⟨(handle_round_trip (mockEngine 2) (cstr "false.sh") mockStart ⟨4096⟩).1,
    match (handle_round_trip (mockEngine 2) (cstr "false.sh") mockStart ⟨4096⟩).2
      (by decide) (by decide) (by decide) with
    | ⟨h, s3, _, hm, hr, hx, hfull, _⟩ =>
      ⟨h, s3, hm, hr, hx, by rw [hfull, hr, hx]; rfl⟩⟩

/-- C9 at concrete inputs: the unclosed `if` is loaded and parsed and nothing more,
`hello.sh` goes through all four stages, and the test double counts one
application of each collaborator that was reached and none of the others. -/
theorem runScript_forward_only_witness :
    RunScript (mockEngine 2) (cstr "missing.sh") mockStart
      = (Outcome.returned 1, ⟨⟨0, 1, 0, 0⟩, [Event.readFile "missing.sh"]⟩)
    ∧ RunScript (mockEngine 2) (cstr "unclosed.sh") mockStart
      = (Outcome.returned 1,
          ⟨⟨0, 1, 1, 0⟩,
            [Event.readFile "unclosed.sh",
              Event.parse (bytesOf "if true; then") "unclosed.sh"]⟩)
    ∧ RunScript (mockEngine 0) (cstr "hello.sh") mockStart
      = (Outcome.panicked "out of memory",
          ⟨⟨0, 1, 1, 0⟩,
            [Event.readFile "hello.sh", Event.parse (bytesOf "echo hello") "hello.sh",
              Event.new]⟩)
    ∧ RunScript (mockEngine 2) (cstr "hello.sh") mockStart
      = (Outcome.returned 0,
          ⟨⟨1, 1, 1, 1⟩,
            [Event.readFile "hello.sh", Event.parse (bytesOf "echo hello") "hello.sh",
              Event.new, Event.run ⟨4096⟩ (bytesOf "echo hello")]⟩)
    ∧ Stage.parse ∈ (callEvents (mockEngine 2) (cstr "unclosed.sh") mockStart).map Event.stage
    ∧ Stage.construct
        ∉ (callEvents (mockEngine 2) (cstr "unclosed.sh") mockStart).map Event.stage
    ∧ Stage.execute ∈ (callEvents (mockEngine 2) (cstr "hello.sh") mockStart).map Event.stage :=
  ⟨(runScript_forward_only (mockEngine 2) (cstr "missing.sh") mockStart).1 (by decide),
    (runScript_forward_only (mockEngine 2) (cstr "unclosed.sh") mockStart).2.1
      (by decide) (by decide),
    (runScript_forward_only (mockEngine 0) (cstr "hello.sh") mockStart).2.2.1
      "out of memory" (by decide) (by decide) (by decide),
    (runScript_forward_only (mockEngine 2) (cstr "hello.sh") mockStart).2.2.2.1
      (by decide) (by decide) (by decide),
    (runScript_forward_only (mockEngine 2) (cstr "unclosed.sh")
      mockStart).2.2.2.2.2.2.2.2.2.2.2.2.1.2 (by decide),
    fun h => absurd
      ((runScript_forward_only (mockEngine 2) (cstr "unclosed.sh")
        mockStart).2.2.2.2.2.2.2.2.2.2.2.2.2.1.1 h).2 (by decide),
    (runScript_forward_only (mockEngine 2) (cstr "hello.sh")
      mockStart).2.2.2.2.2.2.2.2.2.2.2.2.2.2.2 ⟨by decide, by decide, by decide⟩⟩

/-- C10 at concrete inputs: `RunScript "false.sh"` ends with the status and state
of `Run` on the runner at 4096 and the parsed text `false`; the four collaborator
calls of `RunScript "hello.sh"`. -/
theorem runScript_data_flow_witness :
    RunScript (mockEngine 2) (cstr "false.sh") mockStart
      = (Outcome.returned 1,
          ⟨⟨1, 1, 1, 1⟩,
            [Event.readFile "false.sh", Event.parse (bytesOf "false") "false.sh",
              Event.new, Event.run ⟨4096⟩ (bytesOf "false")]⟩)
    ∧ callEvents (mockEngine 2) (cstr "hello.sh") mockStart
      = [Event.readFile "hello.sh", Event.parse (bytesOf "echo hello") "hello.sh",
          Event.new, Event.run ⟨4096⟩ (bytesOf "echo hello")]
    ∧ (callEvents (mockEngine 2) (cstr "hello.sh") mockStart).countP Event.isRun = 1 :=
  ⟨(runScript_data_flow (mockEngine 2) (cstr "false.sh") mockStart).2.2.2.2.1
      (by decide) (by decide) (by decide),
    ((runScript_data_flow (mockEngine 2) (cstr "hello.sh") mockStart).2.2.2.2.2.2.2.2.2.2
      (by decide) (by decide) (by decide)).1,
    ((runScript_data_flow (mockEngine 2) (cstr "hello.sh") mockStart).2.2.2.2.2.2.2.2.2.2
      (by decide) (by decide) (by decide)).2.1⟩

end Bridge
